import Mathlib

/-!
Shallow embedding of the `simple-2pc` Verus development: a two-phase-commit
protocol that renames a key `A -> A'` across replicated key-value stores.

The embedding follows the executable (`*_v.rs`) layer of the source:

* `KvStore` and its operations mirror `kv_store_v.rs` (the vstd
  `StringHashMap` is modelled as an association list whose `mapInsert`
  replaces the existing binding and whose `mapErase` removes the key).
* `KvStoreSpec.is_stale_txn_id` mirrors the ghost layer `kv_store_s.rs`,
  which defines staleness with a strict `<` (the executable layer uses `<=`).
* `Coordinator` and its operations mirror `coordinator_v.rs` (the `SimpleSet`
  of u64 store ids is modelled as a duplicate-free `List Nat` that appends
  new elements at the end, as `Vec::push` does).
* `Message` / `Network` mirror `network_v.rs`: the network is the `Vec` of
  in-flight messages; `receive` removes the first matching copy.
* `ExecSystem` and the driver operations mirror `system_v.rs`; its
  `remove(idx)` followed by `insert(idx, store)` is modelled as `List.set`.

Machine integers (`u64`, `usize`) are modelled as `Nat`; the only arithmetic
the source performs on them is comparison and the increment in
`Coordinator::recover`, which carries the Verus precondition
`current_txn_id < u64::MAX` ruling out overflow (see the C10 theorem).
-/

-- ============================================================
-- Association-list model of vstd::hash_map::StringHashMap
-- ============================================================

/-- Lookup of the first binding of `key`, mirroring `StringHashMap::get`. -/
def mapLookup (key : String) : List (String × Nat) → Option Nat
  | [] => none
  | p :: rest => if p.1 = key then some p.2 else mapLookup key rest

/-- Removal of every binding of `key`, mirroring `StringHashMap::remove`
(the map view simply loses the key). -/
def mapErase (key : String) : List (String × Nat) → List (String × Nat)
  | [] => []
  | p :: rest => if p.1 = key then mapErase key rest else p :: mapErase key rest

/-- Insertion that replaces any existing binding, mirroring
`StringHashMap::insert` (the map view maps `key` to `v`). -/
def mapInsert (key : String) (v : Nat) (m : List (String × Nat)) :
    List (String × Nat) :=
  (key, v) :: mapErase key m

/-- Key-set insertion for the `locked: StringHashMap<bool>` field: inserting
an already-present key replaces its value and leaves the key set unchanged. -/
def setInsert (key : String) (s : List String) : List String :=
  if key ∈ s then s else key :: s

/-- Key-set removal for the `locked` field, mirroring `remove`. -/
def setRemove (key : String) : List String → List String
  | [] => []
  | k :: rest => if k = key then setRemove key rest else k :: setRemove key rest

-- ============================================================
-- KvStore (kv_store_v.rs, exec layer)
-- ============================================================

/-- Executable key-value store of `kv_store_v.rs`: data map, locked-key set
and the last seen transaction id. -/
structure KvStore where
  data : List (String × Nat)
  locked : List String
  last_seen_txn_id : Nat
deriving DecidableEq

namespace KvStore

/-- `KvStore::new`: empty data, empty locks, `last_seen_txn_id = 0`. -/
def new : KvStore := ⟨[], [], 0⟩

/-- `KvStore::get`. -/
def get (st : KvStore) (key : String) : Option Nat :=
  mapLookup key st.data

/-- `KvStore::is_locked`. -/
def is_locked (st : KvStore) (key : String) : Bool :=
  decide (key ∈ st.locked)

/-- `KvStore::contains_key`. -/
def contains_key (st : KvStore) (key : String) : Bool :=
  (mapLookup key st.data).isSome

/-- `KvStore::get_last_seen_txn_id`. -/
def get_last_seen_txn_id (st : KvStore) : Nat :=
  st.last_seen_txn_id

/-- `KvStore::is_stale_txn_id` (exec layer, kv_store_v.rs line 131):
`txn_id <= self.last_seen_txn_id`. -/
def is_stale_txn_id (st : KvStore) (txn_id : Nat) : Bool :=
  decide (txn_id ≤ st.last_seen_txn_id)

/-- `KvStore::update_txn_id`: sets the id only if strictly newer. -/
def update_txn_id (st : KvStore) (txn_id : Nat) : KvStore :=
  if txn_id > st.last_seen_txn_id then { st with last_seen_txn_id := txn_id } else st

/-- `KvStore::put`: fails (returning `false`) iff the key is locked. -/
def put (st : KvStore) (key : String) (value : Nat) : Bool × KvStore :=
  if st.is_locked key then
    (false, st)
  else
    (true, { st with data := mapInsert key value st.data })

/-- `KvStore::delete`: fails (returning `false`) iff the key is locked. -/
def delete (st : KvStore) (key : String) : Bool × KvStore :=
  if st.is_locked key then
    (false, st)
  else
    (true, { st with data := mapErase key st.data })

/-- `KvStore::lock` (idempotent insert into the locked-key set). -/
def lock (st : KvStore) (key : String) : KvStore :=
  { st with locked := setInsert key st.locked }

/-- `KvStore::unlock` (idempotent removal from the locked-key set). -/
def unlock (st : KvStore) (key : String) : KvStore :=
  { st with locked := setRemove key st.locked }

/-- `KvStore::rename`: moves the value from `old_key` to `new_key`, returning
the moved value, or `none` (leaving the store as is) if `old_key` is absent. -/
def rename (st : KvStore) (old_key new_key : String) : Option Nat × KvStore :=
  match mapLookup old_key st.data with
  | some v =>
      (some v, { st with data := mapInsert new_key v (mapErase old_key st.data) })
  | none => (none, st)

end KvStore

-- ============================================================
-- Ghost layer (kv_store_s.rs)
-- ============================================================

/-- Ghost-level store of `kv_store_s.rs` (`KvStoreSpec<u64>`): an abstract
map, an abstract locked-key set and the last seen transaction id. -/
structure KvStoreSpec where
  data : String → Option Nat
  locked_keys : String → Prop
  last_seen_txn_id : Nat

/-- `KvStoreSpec::is_stale_txn_id` (kv_store_s.rs line 48): strictly older
than last seen; its doc comment notes that equality is NOT stale so that
duplicate messages of the same transaction can be re-processed. -/
def KvStoreSpec.is_stale_txn_id (s : KvStoreSpec) (txn_id : Nat) : Prop :=
  txn_id < s.last_seen_txn_id

/-- The `View` connection of `kv_store_v.rs`: the exec store abstracts to the
ghost store. -/
def KvStore.view (st : KvStore) : KvStoreSpec where
  data := fun k => mapLookup k st.data
  locked_keys := fun k => k ∈ st.locked
  last_seen_txn_id := st.last_seen_txn_id

/-- The `data_accessible` invariant of `kv_store_s.rs`: exactly one of the
two keys is present in the data map. -/
def data_accessible (st : KvStore) (key_a key_aprime : String) : Bool :=
  (st.contains_key key_a && !st.contains_key key_aprime)
    || (!st.contains_key key_a && st.contains_key key_aprime)

-- ============================================================
-- Messages and the network (network_v.rs)
-- ============================================================

/-- Protocol messages (`ExecMessage` in network_v.rs). -/
inductive Message where
  | LockReq (store : Nat) (txn_id : Nat)
  | LockResp (store : Nat) (success : Bool) (txn_id : Nat)
  | RenameReq (store : Nat) (txn_id : Nat)
  | RenameResp (store : Nat) (txn_id : Nat)
  | UnlockReq (store : Nat) (txn_id : Nat)
  | UnlockResp (store : Nat) (txn_id : Nat)
deriving DecidableEq

/-- The network of `network_v.rs` (`ExecNetwork`): the `Vec` of in-flight
messages, a multiset with no delivery-order guarantees. -/
abbrev Network := List Message

namespace Network

/-- `ExecNetwork::send`: append one copy (`Vec::push`). -/
def send (m : Message) (net : Network) : Network := net ++ [m]

/-- `ExecNetwork::receive`: remove and return the first copy equal to `m`
(message equality is full structural equality), or `none` leaving the
network unchanged. -/
def receive (m : Message) (net : Network) : Option Message × Network :=
  if m ∈ net then (some m, net.erase m) else (none, net)

/-- `ExecNetwork::lose`: `receive` keeping only the found flag. -/
def lose (m : Message) (net : Network) : Bool × Network :=
  ((receive m net).1.isSome, (receive m net).2)

/-- `ExecNetwork::duplicate`: append one more copy if one exists. -/
def duplicate (m : Message) (net : Network) : Bool × Network :=
  if m ∈ net then (true, net ++ [m]) else (false, net)

/-- `ExecNetwork::count`: number of copies of `m`. -/
def count (m : Message) (net : Network) : Nat := List.count m net

end Network

-- Sanity checks of the map and network models.
example : mapLookup "A" (mapInsert "A" 3 []) = some 3 := by decide
example : (KvStore.new.put "A" 7).2.get "A" = some 7 := by decide
example : Network.count (Message.LockReq 0 1)
    (Network.send (Message.LockReq 0 1) [Message.LockReq 0 1]) = 2 := by decide

-- ============================================================
-- Coordinator (coordinator_v.rs)
-- ============================================================

/-- Coordinator phases (`CoordPhase` in coordinator_s.rs). -/
inductive CoordPhase where
  | Idle
  | Preparing
  | Committed
  | Cleanup
  | Done
  | Crashed
deriving DecidableEq

/-- `CoordPhase::can_crash`: a crash is allowed in Preparing, Committed or
Cleanup. -/
def CoordPhase.can_crash : CoordPhase → Bool
  | .Preparing => true
  | .Committed => true
  | .Cleanup => true
  | _ => false

/-- Insertion into the coordinator's `SimpleSet` (coordinator_v.rs): push at
the end of the `Vec` unless already present. -/
def simpleSetInsert (x : Nat) (s : List Nat) : List Nat :=
  if x ∈ s then s else s ++ [x]

/-- Executable coordinator of `coordinator_v.rs`: durable pair
`(current_txn_id, wal_committed)` plus the volatile phase and the three
store-id sets. -/
structure Coordinator where
  current_txn_id : Nat
  wal_committed : Bool
  phase : CoordPhase
  locks_acquired : List Nat
  renames_done : List Nat
  unlocks_acked : List Nat
deriving DecidableEq

namespace Coordinator

/-- `Coordinator::new`: txn id 1, WAL not committed, phase Idle, empty sets. -/
def new : Coordinator := ⟨1, false, .Idle, [], [], []⟩

/-- `Coordinator::start_preparing` (requires phase Idle or Preparing). -/
def start_preparing (c : Coordinator) : Coordinator :=
  { c with phase := .Preparing }

/-- `Coordinator::record_lock_success` (requires phase Preparing and the
store not yet recorded). -/
def record_lock_success (c : Coordinator) (store : Nat) : Coordinator :=
  { c with locks_acquired := simpleSetInsert store c.locks_acquired }

/-- `Coordinator::handle_lock_failure`: move to Cleanup and clear the three
volatile sets. -/
def handle_lock_failure (c : Coordinator) : Coordinator :=
  { c with phase := .Cleanup, locks_acquired := [], renames_done := [],
           unlocks_acked := [] }

/-- `Coordinator::decide_commit`: record the commit in the WAL, then move to
Committed (requires phase Preparing). -/
def decide_commit (c : Coordinator) : Coordinator :=
  { c with wal_committed := true, phase := .Committed }

/-- `Coordinator::record_rename_done` (requires phase Committed and the
store not yet recorded): returns whether every store has now renamed. -/
def record_rename_done (c : Coordinator) (store num_stores : Nat) :
    Bool × Coordinator :=
  let renames1 := simpleSetInsert store c.renames_done
  if renames1.length = num_stores then
    (true, { c with renames_done := renames1, phase := .Cleanup })
  else
    (false, { c with renames_done := renames1 })

/-- `Coordinator::record_unlock_acked` (requires phase Cleanup and the store
not yet recorded): returns whether every store has now acknowledged. -/
def record_unlock_acked (c : Coordinator) (store num_stores : Nat) :
    Bool × Coordinator :=
  let unlocks1 := simpleSetInsert store c.unlocks_acked
  if unlocks1.length = num_stores then
    (true, { c with unlocks_acked := unlocks1, phase := .Done })
  else
    (false, { c with unlocks_acked := unlocks1 })

/-- `Coordinator::crash` (requires `can_crash`): keep the durable pair, clear
the volatile state. -/
def crash (c : Coordinator) : Coordinator :=
  { c with phase := .Crashed, locks_acquired := [], renames_done := [],
           unlocks_acked := [] }

/-- `Coordinator::recover` (requires phase Crashed and
`current_txn_id < u64::MAX`): increment the txn id, clear the volatile sets,
resume in Committed when the WAL holds the commit and in Cleanup otherwise. -/
def recover (c : Coordinator) : Coordinator :=
  { c with current_txn_id := c.current_txn_id + 1,
           phase := if c.wal_committed then CoordPhase.Committed else CoordPhase.Cleanup,
           locks_acquired := [], renames_done := [], unlocks_acked := [] }

end Coordinator

-- ============================================================
-- System driver (system_v.rs)
-- ============================================================

/-- Executable system of `system_v.rs`: coordinator, stores indexed by store
id, network and the fixed key pair. -/
structure ExecSystem where
  coord : Coordinator
  stores : List KvStore
  net : Network
  key_a : String
  key_aprime : String
deriving DecidableEq

namespace ExecSystem

/-- `ExecSystem::new` (requires `num_stores > 0` and distinct keys): each
store starts with `key_a -> initial_value`. -/
def new (num_stores : Nat) (key_a key_aprime : String) (initial_value : Nat) :
    ExecSystem where
  coord := Coordinator.new
  stores := List.replicate num_stores ((KvStore.new.put key_a initial_value)).2
  net := []
  key_a := key_a
  key_aprime := key_aprime

/-- `ExecSystem::coord_send_lock_req` (requires a valid store and phase Idle
or Preparing): move to Preparing and enqueue `LockReq`. -/
def coord_send_lock_req (sys : ExecSystem) (store_id : Nat) : ExecSystem :=
  let coord1 := sys.coord.start_preparing
  { sys with coord := coord1,
             net := Network.send (Message.LockReq store_id coord1.current_txn_id) sys.net }

/-- `ExecSystem::coord_send_rename_req` (requires a valid store and phase
Committed): enqueue `RenameReq`, no local change. -/
def coord_send_rename_req (sys : ExecSystem) (store_id : Nat) : ExecSystem :=
  { sys with net := Network.send (Message.RenameReq store_id sys.coord.current_txn_id) sys.net }

/-- `ExecSystem::coord_send_unlock_req` (requires a valid store and phase
Cleanup): enqueue `UnlockReq`, no local change. -/
def coord_send_unlock_req (sys : ExecSystem) (store_id : Nat) : ExecSystem :=
  { sys with net := Network.send (Message.UnlockReq store_id sys.coord.current_txn_id) sys.net }

/-- `ExecSystem::coord_recv_lock_resp_success` (requires phase Preparing and
the store not yet recorded): consume one `LockResp{store, true, txn}` if
present; report whether one was found. -/
def coord_recv_lock_resp_success (sys : ExecSystem) (store_id : Nat) :
    Bool × ExecSystem :=
  let expected := Message.LockResp store_id true sys.coord.current_txn_id
  let found := (Network.lose expected sys.net).1
  let net1 := (Network.lose expected sys.net).2
  if found then
    (true, { sys with net := net1, coord := sys.coord.record_lock_success store_id })
  else
    (false, { sys with net := net1 })

/-- `ExecSystem::coord_recv_lock_resp_failure` (requires phase Preparing):
consume one `LockResp{store, false, txn}` if present. -/
def coord_recv_lock_resp_failure (sys : ExecSystem) (store_id : Nat) :
    Bool × ExecSystem :=
  let expected := Message.LockResp store_id false sys.coord.current_txn_id
  let found := (Network.lose expected sys.net).1
  let net1 := (Network.lose expected sys.net).2
  if found then
    (true, { sys with net := net1, coord := sys.coord.handle_lock_failure })
  else
    (false, { sys with net := net1 })

/-- `ExecSystem::coord_decide_commit` (requires phase Preparing). -/
def coord_decide_commit (sys : ExecSystem) : ExecSystem :=
  { sys with coord := sys.coord.decide_commit }

/-- `ExecSystem::coord_recv_rename_resp` (requires phase Committed and the
store not yet recorded): consume one `RenameResp{store, txn}` if present. -/
def coord_recv_rename_resp (sys : ExecSystem) (store_id : Nat) :
    Bool × ExecSystem :=
  let expected := Message.RenameResp store_id sys.coord.current_txn_id
  let found := (Network.lose expected sys.net).1
  let net1 := (Network.lose expected sys.net).2
  if found then
    (true, { sys with
             net := net1,
             coord := (sys.coord.record_rename_done store_id sys.stores.length).2 })
  else
    (false, { sys with net := net1 })

/-- `ExecSystem::coord_recv_unlock_resp` (requires phase Cleanup and the
store not yet recorded): consume one `UnlockResp{store, txn}` if present. -/
def coord_recv_unlock_resp (sys : ExecSystem) (store_id : Nat) :
    Bool × ExecSystem :=
  let expected := Message.UnlockResp store_id sys.coord.current_txn_id
  let found := (Network.lose expected sys.net).1
  let net1 := (Network.lose expected sys.net).2
  if found then
    (true, { sys with
             net := net1,
             coord := (sys.coord.record_unlock_acked store_id sys.stores.length).2 })
  else
    (false, { sys with net := net1 })

/-- `ExecSystem::store_handle_lock_req` (requires a valid store id): consume
one `LockReq{store, txn}`; if the txn id passes the staleness test, refresh
the id and either report failure (when `key_aprime` already exists) or lock
both keys and report success.  The source removes the store from the `Vec`
and re-inserts it at the same index, modelled here by `List.set`. -/
def store_handle_lock_req (sys : ExecSystem) (store_id txn_id : Nat) :
    Bool × ExecSystem :=
  let expected := Message.LockReq store_id txn_id
  let found := (Network.lose expected sys.net).1
  let net1 := (Network.lose expected sys.net).2
  if found then
    let sys1 : ExecSystem := { sys with net := net1 }
    let st0 := sys1.stores.getD store_id KvStore.new
    if st0.is_stale_txn_id txn_id then
      (true, sys1)
    else
      let st1 := st0.update_txn_id txn_id
      if st1.contains_key sys1.key_aprime then
        (true, { sys1 with
                 net := Network.send (Message.LockResp store_id false txn_id) sys1.net,
                 stores := sys1.stores.set store_id st1 })
      else
        let st2 := (st1.lock sys1.key_a).lock sys1.key_aprime
        (true, { sys1 with
                 net := Network.send (Message.LockResp store_id true txn_id) sys1.net,
                 stores := sys1.stores.set store_id st2 })
  else
    (false, { sys with net := net1 })

/-- `ExecSystem::store_handle_rename_req` (requires a valid store id):
consume one `RenameReq{store, txn}`; on a fresh txn id, succeed idempotently
when `key_aprime` already exists, perform the rename when both keys are
locked and `key_a` exists, and otherwise drop silently. -/
def store_handle_rename_req (sys : ExecSystem) (store_id txn_id : Nat) :
    Bool × ExecSystem :=
  let expected := Message.RenameReq store_id txn_id
  let found := (Network.lose expected sys.net).1
  let net1 := (Network.lose expected sys.net).2
  if found then
    let sys1 : ExecSystem := { sys with net := net1 }
    let st0 := sys1.stores.getD store_id KvStore.new
    if st0.is_stale_txn_id txn_id then
      (true, sys1)
    else
      let st1 := st0.update_txn_id txn_id
      if st1.contains_key sys1.key_aprime then
        (true, { sys1 with
                 net := Network.send (Message.RenameResp store_id txn_id) sys1.net,
                 stores := sys1.stores.set store_id st1 })
      else if st1.is_locked sys1.key_a && st1.is_locked sys1.key_aprime
          && st1.contains_key sys1.key_a then
        let st2 := (st1.rename sys1.key_a sys1.key_aprime).2
        (true, { sys1 with
                 net := Network.send (Message.RenameResp store_id txn_id) sys1.net,
                 stores := sys1.stores.set store_id st2 })
      else
        (true, { sys1 with stores := sys1.stores.set store_id st1 })
  else
    (false, { sys with net := net1 })

/-- `ExecSystem::store_handle_unlock_req` (requires a valid store id):
consume one `UnlockReq{store, txn}`; on a fresh txn id, refresh the id,
unlock both keys and respond. -/
def store_handle_unlock_req (sys : ExecSystem) (store_id txn_id : Nat) :
    Bool × ExecSystem :=
  let expected := Message.UnlockReq store_id txn_id
  let found := (Network.lose expected sys.net).1
  let net1 := (Network.lose expected sys.net).2
  if found then
    let sys1 : ExecSystem := { sys with net := net1 }
    let st0 := sys1.stores.getD store_id KvStore.new
    if st0.is_stale_txn_id txn_id then
      (true, sys1)
    else
      let st1 := st0.update_txn_id txn_id
      let st2 := (st1.unlock sys1.key_a).unlock sys1.key_aprime
      (true, { sys1 with
               net := Network.send (Message.UnlockResp store_id txn_id) sys1.net,
               stores := sys1.stores.set store_id st2 })
  else
    (false, { sys with net := net1 })

/-- `ExecSystem::net_lose`: environment drops one copy of a message. -/
def net_lose (sys : ExecSystem) (m : Message) : Bool × ExecSystem :=
  let r := Network.lose m sys.net
  (r.1, { sys with net := r.2 })

/-- `ExecSystem::net_duplicate`: environment duplicates one copy of a
message. -/
def net_duplicate (sys : ExecSystem) (m : Message) : Bool × ExecSystem :=
  let r := Network.duplicate m sys.net
  (r.1, { sys with net := r.2 })

/-- `ExecSystem::coord_crash` (requires a crashable phase). -/
def coord_crash (sys : ExecSystem) : ExecSystem :=
  { sys with coord := sys.coord.crash }

/-- `ExecSystem::coord_recover` (requires phase Crashed and
`current_txn_id < u64::MAX`). -/
def coord_recover (sys : ExecSystem) : ExecSystem :=
  { sys with coord := sys.coord.recover }

end ExecSystem

-- ============================================================
-- Reachable coordinator states (for the Committed => WAL invariant)
-- ============================================================

/-- Coordinator states reachable from `Coordinator::new` by the coordinator
operations of `coordinator_v.rs`, each guarded by its Verus `requires`
clause. -/
inductive CoordReach : Coordinator → Prop where
  | init : CoordReach Coordinator.new
  | start_preparing (c : Coordinator) :
      CoordReach c → (c.phase = .Idle ∨ c.phase = .Preparing) →
      CoordReach c.start_preparing
  | record_lock_success (c : Coordinator) (store : Nat) :
      CoordReach c → c.phase = .Preparing → store ∉ c.locks_acquired →
      CoordReach (c.record_lock_success store)
  | handle_lock_failure (c : Coordinator) :
      CoordReach c → c.phase = .Preparing →
      CoordReach c.handle_lock_failure
  | decide_commit (c : Coordinator) :
      CoordReach c → c.phase = .Preparing →
      CoordReach c.decide_commit
  | record_rename_done (c : Coordinator) (store num_stores : Nat) :
      CoordReach c → c.phase = .Committed → store ∉ c.renames_done →
      CoordReach (c.record_rename_done store num_stores).2
  | record_unlock_acked (c : Coordinator) (store num_stores : Nat) :
      CoordReach c → c.phase = .Cleanup → store ∉ c.unlocks_acked →
      CoordReach (c.record_unlock_acked store num_stores).2
  | crash (c : Coordinator) :
      CoordReach c → c.phase.can_crash = true →
      CoordReach c.crash
  | recover (c : Coordinator) :
      CoordReach c → c.phase = .Crashed → c.current_txn_id < 2 ^ 64 - 1 →
      CoordReach c.recover

-- ============================================================
-- Concrete states and traces used by the claim theorems
-- ============================================================

/-- S5 after `send_lock_req(0)`: fresh one-store system (key `A` holds 42),
coordinator txn id 1, one `LockReq{0,1}` in flight. -/
def s5_sys1 : ExecSystem := (ExecSystem.new 1 "A" "Ap" 42).coord_send_lock_req 0

/-- S5 after `duplicate(LockReq{0,1})`: two copies in flight. -/
def s5_sys2 : ExecSystem := (s5_sys1.net_duplicate (Message.LockReq 0 1)).2

/-- S5 after the first `handle_lock_req(0,1)`. -/
def s5_sys3 : ExecSystem := (s5_sys2.store_handle_lock_req 0 1).2

/-- S5 after the second `handle_lock_req(0,1)`. -/
def s5_sys4 : ExecSystem := (s5_sys3.store_handle_lock_req 0 1).2

/-- One-store system with the coordinator in phase Preparing and empty
volatile sets (used to instantiate preconditions in witnesses). -/
def sysPrep : ExecSystem :=
  ⟨⟨1, false, .Preparing, [], [], []⟩, [KvStore.new], [], "A", "B"⟩

/-- One-store system with the coordinator in phase Committed (WAL
committed) and empty volatile sets. -/
def sysComm : ExecSystem :=
  ⟨⟨1, true, .Committed, [], [], []⟩, [KvStore.new], [], "A", "B"⟩

/-- One-store system with the coordinator in phase Cleanup and empty
volatile sets. -/
def sysClean : ExecSystem :=
  ⟨⟨1, false, .Cleanup, [], [], []⟩, [KvStore.new], [], "A", "B"⟩

/-- A crashed coordinator with the WAL committed (txn id 5). -/
def coordCrashed : Coordinator := ⟨5, true, .Crashed, [], [], []⟩

-- Sanity checks of the S5 trace.
example : (s5_sys1.net_duplicate (Message.LockReq 0 1)).1 = true := by decide
example : (s5_sys2.store_handle_lock_req 0 1).1 = true := by decide
example : (s5_sys3.store_handle_lock_req 0 1).1 = true := by decide

-- ============================================================
-- Helper lemmas about the map and network models
-- ============================================================

theorem mapLookup_mapErase_self (key : String) (m : List (String × Nat)) :
    mapLookup key (mapErase key m) = none := by
  induction m with
  | nil => rfl
  | cons p rest ih =>
      by_cases h : p.1 = key
      · simpa [mapErase, h] using ih
      · simp [mapErase, mapLookup, h, ih]

theorem mapLookup_mapErase_ne (key other : String) (m : List (String × Nat))
    (h : other ≠ key) :
    mapLookup other (mapErase key m) = mapLookup other m := by
  induction m with
  | nil => rfl
  | cons p rest ih =>
      by_cases hp : p.1 = key
      · have hpo : p.1 ≠ other := by
          rw [hp]
          exact fun he => h he.symm
        simp [mapErase, mapLookup, hp, hpo, Ne.symm h, ih]
      · by_cases hpo : p.1 = other
        · simp [mapErase, mapLookup, hp, hpo, h]
        · simp [mapErase, mapLookup, hp, hpo, ih]

theorem network_lose_not_found (m : Message) (net : Network) (h : m ∉ net) :
    Network.lose m net = (false, net) := by
  simp [Network.lose, Network.receive, h]

theorem network_lose_found_flag (m : Message) (net : Network) (h : m ∈ net) :
    (Network.lose m net).1 = true := by
  simp [Network.lose, Network.receive, h]

-- ============================================================
-- Claim theorems
-- ============================================================

/-- C1 (code bug): the executable staleness test `KvStore::is_stale_txn_id`
classifies a transaction id EQUAL to `last_seen_txn_id` as stale (it uses
`<=`), contradicting the strict-`<` definition of the repository's own ghost
layer `KvStoreSpec::is_stale_txn_id`: at `last_seen_txn_id = 1` the message
with `txn_id = 1` is rejected by the executable code although the ghost
layer (and the spec) say it is not stale. -/
theorem c1_exec_staleness_rejects_equal_txn :
    KvStore.is_stale_txn_id ⟨[], [], 1⟩ 1 = true ∧
      ¬ KvStoreSpec.is_stale_txn_id (KvStore.view ⟨[], [], 1⟩) 1 := by
  constructor
  · decide
  · simp [KvStoreSpec.is_stale_txn_id, KvStore.view]

/-- C2 (code bug): in the S5 scenario (fresh one-store system, txn id 1,
`send_lock_req(0)`, duplication of `LockReq{0,1}`, then
`store_handle_lock_req(0,1)` twice) the executable driver leaves exactly ONE
copy of `LockResp{0,true,1}` in the network, not the two copies the spec
scenario (and the repository's own `test_network_duplication`) expect: the
second delivery is dropped by the `<=` staleness test.  The store state is
indeed unchanged by the second handle. -/
theorem c2_s5_duplicate_lock_req_single_resp :
    Network.count (Message.LockResp 0 true 1) s5_sys4.net = 1 ∧
      s5_sys4.stores = s5_sys3.stores := by
  constructor
  · decide
  · decide

/-- C3: when both keys are locked, `key_a` is present, `key_aprime` is
absent and the keys are distinct, `rename(key_a, key_aprime)` makes
`key_aprime` present with the pre-state value of `key_a`, removes `key_a`,
and preserves the exactly-one-of-two `data_accessible` invariant. -/
theorem c3_rename_preserves_value_and_accessibility
    (st : KvStore) (key_a key_aprime : String)
    (hla : st.is_locked key_a = true)
    (hlap : st.is_locked key_aprime = true)
    (hca : st.contains_key key_a = true)
    (hcap : st.contains_key key_aprime = false)
    (hne : key_a ≠ key_aprime) :
    (st.rename key_a key_aprime).2.contains_key key_aprime = true ∧
      (st.rename key_a key_aprime).2.get key_aprime = st.get key_a ∧
      (st.rename key_a key_aprime).2.contains_key key_a = false ∧
      data_accessible (st.rename key_a key_aprime).2 key_a key_aprime = true := by
  obtain ⟨v, hv⟩ : ∃ v, mapLookup key_a st.data = some v := by
    cases h : mapLookup key_a st.data with
    | none => simp [KvStore.contains_key, h] at hca
    | some v => exact ⟨v, rfl⟩
  have hdata : (st.rename key_a key_aprime).2.data
      = mapInsert key_aprime v (mapErase key_a st.data) := by
    simp [KvStore.rename, hv]
  have hcontap : (st.rename key_a key_aprime).2.contains_key key_aprime = true := by
    simp [KvStore.contains_key, hdata, mapInsert, mapLookup]
  have hconta : (st.rename key_a key_aprime).2.contains_key key_a = false := by
    have h1 : mapLookup key_a (mapErase key_aprime (mapErase key_a st.data))
        = none := by
      rw [mapLookup_mapErase_ne key_aprime key_a _ hne]
      exact mapLookup_mapErase_self key_a st.data
    simp [KvStore.contains_key, hdata, mapInsert, mapLookup, Ne.symm hne, h1]
  refine ⟨hcontap, ?_, hconta, ?_⟩
  · simp [KvStore.get, hdata, mapInsert, mapLookup, hv]
  · simp [data_accessible, hcontap, hconta]

/-- C3 witness: a store holding `A = 42` with `A` and `B` locked. -/
theorem c3_witness :
    ((⟨[("A", 42)], ["A", "B"], 0⟩ : KvStore).rename "A" "B").2.contains_key "B" = true ∧
      ((⟨[("A", 42)], ["A", "B"], 0⟩ : KvStore).rename "A" "B").2.get "B"
        = (⟨[("A", 42)], ["A", "B"], 0⟩ : KvStore).get "A" ∧
      ((⟨[("A", 42)], ["A", "B"], 0⟩ : KvStore).rename "A" "B").2.contains_key "A" = false ∧
      data_accessible ((⟨[("A", 42)], ["A", "B"], 0⟩ : KvStore).rename "A" "B").2 "A" "B" = true :=
  c3_rename_preserves_value_and_accessibility ⟨[("A", 42)], ["A", "B"], 0⟩ "A" "B"
    (by decide) (by decide) (by decide) (by decide) (by decide)

/-- C9: under the `rename` preconditions (both keys locked, keys distinct),
the lock set and `last_seen_txn_id` are untouched, the result is `some`
exactly when the old key was present, and on an absent old key the call
returns `none` with the data map unchanged (indeed the whole store
unchanged). -/
theorem c9_rename_frame
    (st : KvStore) (old_key new_key : String)
    (hlo : st.is_locked old_key = true)
    (hln : st.is_locked new_key = true)
    (hne : old_key ≠ new_key) :
    (st.rename old_key new_key).2.locked = st.locked ∧
      (st.rename old_key new_key).2.last_seen_txn_id = st.last_seen_txn_id ∧
      (st.rename old_key new_key).1.isSome = st.contains_key old_key ∧
      (st.contains_key old_key = false →
        (st.rename old_key new_key).1 = none ∧
          (st.rename old_key new_key).2 = st) := by
  cases h : mapLookup old_key st.data with
  | none => simp [KvStore.rename, KvStore.contains_key, h]
  | some v => simp [KvStore.rename, KvStore.contains_key, h]

/-- C9 witness: the same concrete store, plus the absent-key case on a store
with empty data. -/
theorem c9_witness :
    ((⟨[("A", 42)], ["A", "B"], 0⟩ : KvStore).rename "A" "B").2.locked
        = (⟨[("A", 42)], ["A", "B"], 0⟩ : KvStore).locked ∧
      ((⟨[], ["A", "B"], 7⟩ : KvStore).contains_key "A" = false →
        ((⟨[], ["A", "B"], 7⟩ : KvStore).rename "A" "B").1 = none ∧
          ((⟨[], ["A", "B"], 7⟩ : KvStore).rename "A" "B").2
            = (⟨[], ["A", "B"], 7⟩ : KvStore)) :=
  ⟨(c9_rename_frame ⟨[("A", 42)], ["A", "B"], 0⟩ "A" "B"
      (by decide) (by decide) (by decide)).1,
    (c9_rename_frame ⟨[], ["A", "B"], 7⟩ "A" "B"
      (by decide) (by decide) (by decide)).2.2.2⟩

/-- C7: `put` and `delete` return `false` exactly when the key is locked,
and on a locked key each is the identity on the whole store. -/
theorem c7_put_delete_locked_identity (st : KvStore) (key : String) (value : Nat) :
    ((st.put key value).1 = false ↔ st.is_locked key = true) ∧
      (st.is_locked key = true → (st.put key value).2 = st) ∧
      ((st.delete key).1 = false ↔ st.is_locked key = true) ∧
      (st.is_locked key = true → (st.delete key).2 = st) := by
  cases h : st.is_locked key with
  | false => simp [KvStore.put, KvStore.delete, h]
  | true => simp [KvStore.put, KvStore.delete, h]

/-- C7 witness: a store whose only key `A` is locked. -/
theorem c7_witness :
    (((⟨[("A", 1)], ["A"], 0⟩ : KvStore).put "A" 5).1 = false ↔
        (⟨[("A", 1)], ["A"], 0⟩ : KvStore).is_locked "A" = true) ∧
      ((⟨[("A", 1)], ["A"], 0⟩ : KvStore).is_locked "A" = true →
        ((⟨[("A", 1)], ["A"], 0⟩ : KvStore).put "A" 5).2
          = (⟨[("A", 1)], ["A"], 0⟩ : KvStore)) :=
  ⟨(c7_put_delete_locked_identity ⟨[("A", 1)], ["A"], 0⟩ "A" 5).1,
    (c7_put_delete_locked_identity ⟨[("A", 1)], ["A"], 0⟩ "A" 5).2.1⟩

/-- C5: for a crashed coordinator, `recover` increments `current_txn_id` by
exactly 1, preserves `wal_committed`, clears the three volatile sets, and
resumes in Committed when the WAL holds the commit and in Cleanup
otherwise. -/
theorem c5_recover_functional (c : Coordinator) (h : c.phase = .Crashed) :
    c.recover.current_txn_id = c.current_txn_id + 1 ∧
      c.recover.wal_committed = c.wal_committed ∧
      c.recover.locks_acquired = [] ∧
      c.recover.renames_done = [] ∧
      c.recover.unlocks_acked = [] ∧
      (c.wal_committed = true → c.recover.phase = .Committed) ∧
      (c.wal_committed = false → c.recover.phase = .Cleanup) := by
  cases hw : c.wal_committed with
  | false => simp [Coordinator.recover, hw]
  | true => simp [Coordinator.recover, hw]

/-- C5 witness: the crashed coordinator `coordCrashed` (txn id 5, WAL
committed). -/
theorem c5_witness :
    coordCrashed.recover.current_txn_id = coordCrashed.current_txn_id + 1 ∧
      coordCrashed.recover.wal_committed = coordCrashed.wal_committed ∧
      coordCrashed.recover.locks_acquired = [] ∧
      coordCrashed.recover.renames_done = [] ∧
      coordCrashed.recover.unlocks_acked = [] ∧
      (coordCrashed.wal_committed = true → coordCrashed.recover.phase = .Committed) ∧
      (coordCrashed.wal_committed = false → coordCrashed.recover.phase = .Cleanup) :=
  c5_recover_functional coordCrashed (by decide)


theorem record_rename_done_wal (c : Coordinator) (store num_stores : Nat) :
    ((c.record_rename_done store num_stores).2).wal_committed = c.wal_committed := by
  simp only [Coordinator.record_rename_done]
  split <;> rfl

theorem record_unlock_acked_wal (c : Coordinator) (store num_stores : Nat) :
    ((c.record_unlock_acked store num_stores).2).wal_committed = c.wal_committed := by
  simp only [Coordinator.record_unlock_acked]
  split <;> rfl

theorem record_unlock_acked_phase (c : Coordinator) (store num_stores : Nat) :
    ((c.record_unlock_acked store num_stores).2).phase = .Done ∨
      ((c.record_unlock_acked store num_stores).2).phase = c.phase := by
  simp only [Coordinator.record_unlock_acked]
  split
  · exact Or.inl rfl
  · exact Or.inr rfl

/-- C4: in every coordinator state reachable from the initial state via the
coordinator operations invoked under their preconditions, phase Committed
implies that the WAL records the commit (`decide_commit` writes the WAL in
the same atomic step that enters Committed, and `recover` enters Committed
only when the WAL holds). -/
theorem c4_committed_implies_wal (c : Coordinator) (hreach : CoordReach c)
    (hph : c.phase = .Committed) : c.wal_committed = true := by
  induction hreach with
  | init => exact absurd hph (by decide)
  | start_preparing c hr hpre ih =>
      simp [Coordinator.start_preparing] at hph
  | record_lock_success c store hr hpre hmem ih =>
      simp only [Coordinator.record_lock_success] at hph ⊢
      rw [hpre] at hph
      exact absurd hph (by decide)
  | handle_lock_failure c hr hpre ih =>
      simp [Coordinator.handle_lock_failure] at hph
  | decide_commit c hr hpre ih =>
      simp [Coordinator.decide_commit]
  | record_rename_done c store num_stores hr hpre hmem ih =>
      rw [record_rename_done_wal]
      exact ih hpre
  | record_unlock_acked c store num_stores hr hpre hmem ih =>
      rcases record_unlock_acked_phase c store num_stores with hd | hsame
      · rw [hd] at hph
        exact absurd hph (by decide)
      · rw [hsame, hpre] at hph
        exact absurd hph (by decide)
  | crash c hr hpre ih =>
      simp [Coordinator.crash] at hph
  | recover c hr hpre hlt ih =>
      cases hw : c.wal_committed with
      | true => simp [Coordinator.recover, hw]
      | false => simp [Coordinator.recover, hw] at hph

/-- C4 witness: the state reached by `start_preparing` then `decide_commit`
is in phase Committed and has the WAL committed. -/
theorem c4_witness :
    (Coordinator.new.start_preparing.decide_commit).wal_committed = true :=
  c4_committed_implies_wal _
    (CoordReach.decide_commit _
      (CoordReach.start_preparing _ CoordReach.init (Or.inl rfl)) rfl) rfl

/-- C10: `Coordinator::recover` (and the driver's `coord_recover`) carries
the Verus precondition `current_txn_id < u64::MAX`; under it the increment
performed by `recover` stays below `2^64`, so the machine increment does not
wrap and `recover` increments the transaction id by exactly 1. -/
theorem c10_recover_no_overflow (sys : ExecSystem)
    (hph : sys.coord.phase = .Crashed)
    (hlt : sys.coord.current_txn_id < 2 ^ 64 - 1) :
    (sys.coord.current_txn_id + 1) % 2 ^ 64 = sys.coord.current_txn_id + 1 ∧
      sys.coord.recover.current_txn_id = sys.coord.current_txn_id + 1 ∧
      (sys.coord_recover).coord.current_txn_id = sys.coord.current_txn_id + 1 := by
  refine ⟨Nat.mod_eq_of_lt (by omega), rfl, rfl⟩

/-- C10 witness: a one-store system whose coordinator is `coordCrashed`. -/
theorem c10_witness :
    ((⟨coordCrashed, [KvStore.new], [], "A", "B"⟩ : ExecSystem).coord.current_txn_id + 1) % 2 ^ 64
        = (⟨coordCrashed, [KvStore.new], [], "A", "B"⟩ : ExecSystem).coord.current_txn_id + 1 ∧
      (⟨coordCrashed, [KvStore.new], [], "A", "B"⟩ : ExecSystem).coord.recover.current_txn_id
        = (⟨coordCrashed, [KvStore.new], [], "A", "B"⟩ : ExecSystem).coord.current_txn_id + 1 ∧
      ((⟨coordCrashed, [KvStore.new], [], "A", "B"⟩ : ExecSystem).coord_recover).coord.current_txn_id
        = (⟨coordCrashed, [KvStore.new], [], "A", "B"⟩ : ExecSystem).coord.current_txn_id + 1 :=
  c10_recover_no_overflow ⟨coordCrashed, [KvStore.new], [], "A", "B"⟩
    (by decide) (by norm_num [coordCrashed])

/-- C6: `receive(m)` returns one copy of `m` and leaves one fewer copy in
the network when at least one copy is present, and returns `none` leaving
the network unchanged when no copy is present. -/
theorem c6_receive_removes_one_copy (net : Network) (m : Message) :
    (m ∈ net →
      (Network.receive m net).1 = some m ∧
        Network.count m (Network.receive m net).2 + 1 = Network.count m net) ∧
      (m ∉ net →
        (Network.receive m net).1 = none ∧ (Network.receive m net).2 = net) := by
  constructor
  · intro h
    refine ⟨by simp [Network.receive, h], ?_⟩
    have hpos : 0 < List.count m net := List.count_pos_iff.mpr h
    have herase := List.count_erase_self m net
    simp only [Network.receive, Network.count, if_pos h]
    omega
  · intro h
    simp [Network.receive, h]

/-- C6 witness: receiving a present message from a singleton network, and
receiving an absent message from the empty network. -/
theorem c6_witness :
    ((Network.receive (Message.LockReq 0 1) [Message.LockReq 0 1]).1
        = some (Message.LockReq 0 1) ∧
      Network.count (Message.LockReq 0 1)
          (Network.receive (Message.LockReq 0 1) [Message.LockReq 0 1]).2 + 1
        = Network.count (Message.LockReq 0 1) [Message.LockReq 0 1]) ∧
      ((Network.receive (Message.UnlockReq 0 1) []).1 = none ∧
        (Network.receive (Message.UnlockReq 0 1) []).2 = []) :=
  ⟨(c6_receive_removes_one_copy [Message.LockReq 0 1] (Message.LockReq 0 1)).1
      (by decide),
    (c6_receive_removes_one_copy [] (Message.UnlockReq 0 1)).2 (by decide)⟩

theorem coord_recv_lock_resp_success_not_found (sys : ExecSystem) (sid : Nat)
    (h : Message.LockResp sid true sys.coord.current_txn_id ∉ sys.net) :
    sys.coord_recv_lock_resp_success sid = (false, sys) := by
  simp [ExecSystem.coord_recv_lock_resp_success, Network.lose, Network.receive, h]

theorem coord_recv_lock_resp_success_found (sys : ExecSystem) (sid : Nat)
    (h : Message.LockResp sid true sys.coord.current_txn_id ∈ sys.net) :
    (sys.coord_recv_lock_resp_success sid).1 = true := by
  simp [ExecSystem.coord_recv_lock_resp_success, Network.lose, Network.receive, h]

theorem coord_recv_lock_resp_failure_not_found (sys : ExecSystem) (sid : Nat)
    (h : Message.LockResp sid false sys.coord.current_txn_id ∉ sys.net) :
    sys.coord_recv_lock_resp_failure sid = (false, sys) := by
  simp [ExecSystem.coord_recv_lock_resp_failure, Network.lose, Network.receive, h]

theorem coord_recv_lock_resp_failure_found (sys : ExecSystem) (sid : Nat)
    (h : Message.LockResp sid false sys.coord.current_txn_id ∈ sys.net) :
    (sys.coord_recv_lock_resp_failure sid).1 = true := by
  simp [ExecSystem.coord_recv_lock_resp_failure, Network.lose, Network.receive, h]

theorem coord_recv_rename_resp_not_found (sys : ExecSystem) (sid : Nat)
    (h : Message.RenameResp sid sys.coord.current_txn_id ∉ sys.net) :
    sys.coord_recv_rename_resp sid = (false, sys) := by
  simp [ExecSystem.coord_recv_rename_resp, Network.lose, Network.receive, h]

theorem coord_recv_rename_resp_found (sys : ExecSystem) (sid : Nat)
    (h : Message.RenameResp sid sys.coord.current_txn_id ∈ sys.net) :
    (sys.coord_recv_rename_resp sid).1 = true := by
  simp [ExecSystem.coord_recv_rename_resp, Network.lose, Network.receive, h]

theorem coord_recv_unlock_resp_not_found (sys : ExecSystem) (sid : Nat)
    (h : Message.UnlockResp sid sys.coord.current_txn_id ∉ sys.net) :
    sys.coord_recv_unlock_resp sid = (false, sys) := by
  simp [ExecSystem.coord_recv_unlock_resp, Network.lose, Network.receive, h]

theorem coord_recv_unlock_resp_found (sys : ExecSystem) (sid : Nat)
    (h : Message.UnlockResp sid sys.coord.current_txn_id ∈ sys.net) :
    (sys.coord_recv_unlock_resp sid).1 = true := by
  simp [ExecSystem.coord_recv_unlock_resp, Network.lose, Network.receive, h]

theorem store_handle_lock_req_not_found (sys : ExecSystem) (sid txn : Nat)
    (h : Message.LockReq sid txn ∉ sys.net) :
    sys.store_handle_lock_req sid txn = (false, sys) := by
  simp [ExecSystem.store_handle_lock_req, Network.lose, Network.receive, h]

theorem store_handle_lock_req_found (sys : ExecSystem) (sid txn : Nat)
    (h : Message.LockReq sid txn ∈ sys.net) :
    (sys.store_handle_lock_req sid txn).1 = true := by
  simp only [ExecSystem.store_handle_lock_req, Network.lose, Network.receive,
    if_pos h, Option.isSome_some, if_true]
  split_ifs <;> rfl

theorem store_handle_rename_req_not_found (sys : ExecSystem) (sid txn : Nat)
    (h : Message.RenameReq sid txn ∉ sys.net) :
    sys.store_handle_rename_req sid txn = (false, sys) := by
  simp [ExecSystem.store_handle_rename_req, Network.lose, Network.receive, h]

theorem store_handle_rename_req_found (sys : ExecSystem) (sid txn : Nat)
    (h : Message.RenameReq sid txn ∈ sys.net) :
    (sys.store_handle_rename_req sid txn).1 = true := by
  simp only [ExecSystem.store_handle_rename_req, Network.lose, Network.receive,
    if_pos h, Option.isSome_some, if_true]
  split_ifs <;> rfl

theorem store_handle_unlock_req_not_found (sys : ExecSystem) (sid txn : Nat)
    (h : Message.UnlockReq sid txn ∉ sys.net) :
    sys.store_handle_unlock_req sid txn = (false, sys) := by
  simp [ExecSystem.store_handle_unlock_req, Network.lose, Network.receive, h]

theorem store_handle_unlock_req_found (sys : ExecSystem) (sid txn : Nat)
    (h : Message.UnlockReq sid txn ∈ sys.net) :
    (sys.store_handle_unlock_req sid txn).1 = true := by
  simp only [ExecSystem.store_handle_unlock_req, Network.lose, Network.receive,
    if_pos h, Option.isSome_some, if_true]
  split_ifs <;> rfl

/-- C8: each receive-style driver operation, invoked under its precondition,
returns `false` exactly when no matching message is in the network, and when
it returns `false` the whole system state (coordinator, stores, network) is
unchanged. -/
theorem c8_recv_ops_false_iff_no_message :
    (∀ (sys : ExecSystem) (sid : Nat),
      sys.coord.phase = .Preparing → sid ∉ sys.coord.locks_acquired →
      ((sys.coord_recv_lock_resp_success sid).1 = false ↔
          Message.LockResp sid true sys.coord.current_txn_id ∉ sys.net) ∧
        ((sys.coord_recv_lock_resp_success sid).1 = false →
          (sys.coord_recv_lock_resp_success sid).2 = sys)) ∧
    (∀ (sys : ExecSystem) (sid : Nat),
      sys.coord.phase = .Preparing →
      ((sys.coord_recv_lock_resp_failure sid).1 = false ↔
          Message.LockResp sid false sys.coord.current_txn_id ∉ sys.net) ∧
        ((sys.coord_recv_lock_resp_failure sid).1 = false →
          (sys.coord_recv_lock_resp_failure sid).2 = sys)) ∧
    (∀ (sys : ExecSystem) (sid : Nat),
      sys.coord.phase = .Committed → sid ∉ sys.coord.renames_done →
      ((sys.coord_recv_rename_resp sid).1 = false ↔
          Message.RenameResp sid sys.coord.current_txn_id ∉ sys.net) ∧
        ((sys.coord_recv_rename_resp sid).1 = false →
          (sys.coord_recv_rename_resp sid).2 = sys)) ∧
    (∀ (sys : ExecSystem) (sid : Nat),
      sys.coord.phase = .Cleanup → sid ∉ sys.coord.unlocks_acked →
      ((sys.coord_recv_unlock_resp sid).1 = false ↔
          Message.UnlockResp sid sys.coord.current_txn_id ∉ sys.net) ∧
        ((sys.coord_recv_unlock_resp sid).1 = false →
          (sys.coord_recv_unlock_resp sid).2 = sys)) ∧
    (∀ (sys : ExecSystem) (sid txn : Nat),
      sid < sys.stores.length →
      ((sys.store_handle_lock_req sid txn).1 = false ↔
          Message.LockReq sid txn ∉ sys.net) ∧
        ((sys.store_handle_lock_req sid txn).1 = false →
          (sys.store_handle_lock_req sid txn).2 = sys)) ∧
    (∀ (sys : ExecSystem) (sid txn : Nat),
      sid < sys.stores.length →
      ((sys.store_handle_rename_req sid txn).1 = false ↔
          Message.RenameReq sid txn ∉ sys.net) ∧
        ((sys.store_handle_rename_req sid txn).1 = false →
          (sys.store_handle_rename_req sid txn).2 = sys)) ∧
    (∀ (sys : ExecSystem) (sid txn : Nat),
      sid < sys.stores.length →
      ((sys.store_handle_unlock_req sid txn).1 = false ↔
          Message.UnlockReq sid txn ∉ sys.net) ∧
        ((sys.store_handle_unlock_req sid txn).1 = false →
          (sys.store_handle_unlock_req sid txn).2 = sys)) := by
  refine ⟨?_, ?_, ?_, ?_, ?_, ?_, ?_⟩
  · intro sys sid hph hmem
    by_cases h : Message.LockResp sid true sys.coord.current_txn_id ∈ sys.net
    · rw [coord_recv_lock_resp_success_found sys sid h]
      simp [h]
    · rw [coord_recv_lock_resp_success_not_found sys sid h]
      simp [h]
  · intro sys sid hph
    by_cases h : Message.LockResp sid false sys.coord.current_txn_id ∈ sys.net
    · rw [coord_recv_lock_resp_failure_found sys sid h]
      simp [h]
    · rw [coord_recv_lock_resp_failure_not_found sys sid h]
      simp [h]
  · intro sys sid hph hmem
    by_cases h : Message.RenameResp sid sys.coord.current_txn_id ∈ sys.net
    · rw [coord_recv_rename_resp_found sys sid h]
      simp [h]
    · rw [coord_recv_rename_resp_not_found sys sid h]
      simp [h]
  · intro sys sid hph hmem
    by_cases h : Message.UnlockResp sid sys.coord.current_txn_id ∈ sys.net
    · rw [coord_recv_unlock_resp_found sys sid h]
      simp [h]
    · rw [coord_recv_unlock_resp_not_found sys sid h]
      simp [h]
  · intro sys sid txn hvalid
    by_cases h : Message.LockReq sid txn ∈ sys.net
    · rw [store_handle_lock_req_found sys sid txn h]
      simp [h]
    · rw [store_handle_lock_req_not_found sys sid txn h]
      simp [h]
  · intro sys sid txn hvalid
    by_cases h : Message.RenameReq sid txn ∈ sys.net
    · rw [store_handle_rename_req_found sys sid txn h]
      simp [h]
    · rw [store_handle_rename_req_not_found sys sid txn h]
      simp [h]
  · intro sys sid txn hvalid
    by_cases h : Message.UnlockReq sid txn ∈ sys.net
    · rw [store_handle_unlock_req_found sys sid txn h]
      simp [h]
    · rw [store_handle_unlock_req_not_found sys sid txn h]
      simp [h]

/-- C8 witness: the seven receive-style operations instantiated at concrete
one-store systems in phases Preparing, Committed and Cleanup with an empty
network. -/
theorem c8_witness :
    (((sysPrep.coord_recv_lock_resp_success 0).1 = false ↔
        Message.LockResp 0 true sysPrep.coord.current_txn_id ∉ sysPrep.net) ∧
      ((sysPrep.coord_recv_lock_resp_success 0).1 = false →
        (sysPrep.coord_recv_lock_resp_success 0).2 = sysPrep)) ∧
    (((sysPrep.coord_recv_lock_resp_failure 0).1 = false ↔
        Message.LockResp 0 false sysPrep.coord.current_txn_id ∉ sysPrep.net) ∧
      ((sysPrep.coord_recv_lock_resp_failure 0).1 = false →
        (sysPrep.coord_recv_lock_resp_failure 0).2 = sysPrep)) ∧
    (((sysComm.coord_recv_rename_resp 0).1 = false ↔
        Message.RenameResp 0 sysComm.coord.current_txn_id ∉ sysComm.net) ∧
      ((sysComm.coord_recv_rename_resp 0).1 = false →
        (sysComm.coord_recv_rename_resp 0).2 = sysComm)) ∧
    (((sysClean.coord_recv_unlock_resp 0).1 = false ↔
        Message.UnlockResp 0 sysClean.coord.current_txn_id ∉ sysClean.net) ∧
      ((sysClean.coord_recv_unlock_resp 0).1 = false →
        (sysClean.coord_recv_unlock_resp 0).2 = sysClean)) ∧
    (((sysPrep.store_handle_lock_req 0 1).1 = false ↔
        Message.LockReq 0 1 ∉ sysPrep.net) ∧
      ((sysPrep.store_handle_lock_req 0 1).1 = false →
        (sysPrep.store_handle_lock_req 0 1).2 = sysPrep)) ∧
    (((sysPrep.store_handle_rename_req 0 1).1 = false ↔
        Message.RenameReq 0 1 ∉ sysPrep.net) ∧
      ((sysPrep.store_handle_rename_req 0 1).1 = false →
        (sysPrep.store_handle_rename_req 0 1).2 = sysPrep)) ∧
    (((sysPrep.store_handle_unlock_req 0 1).1 = false ↔
        Message.UnlockReq 0 1 ∉ sysPrep.net) ∧
      ((sysPrep.store_handle_unlock_req 0 1).1 = false →
        (sysPrep.store_handle_unlock_req 0 1).2 = sysPrep)) :=
  ⟨c8_recv_ops_false_iff_no_message.1 sysPrep 0 (by decide) (by decide),
    c8_recv_ops_false_iff_no_message.2.1 sysPrep 0 (by decide),
    c8_recv_ops_false_iff_no_message.2.2.1 sysComm 0 (by decide) (by decide),
    c8_recv_ops_false_iff_no_message.2.2.2.1 sysClean 0 (by decide) (by decide),
    c8_recv_ops_false_iff_no_message.2.2.2.2.1 sysPrep 0 1 (by decide),
    c8_recv_ops_false_iff_no_message.2.2.2.2.2.1 sysPrep 0 1 (by decide),
    c8_recv_ops_false_iff_no_message.2.2.2.2.2.2 sysPrep 0 1 (by decide)⟩
